import Mathlib

/-!
Shallow embedding of the Person-Data-Store application (`src/pandas.py`,
a Flask app): the data model (`User`, `Person`), the Flask session, the
`permission_required` decorator, and the route handlers `register`,
`login`, `logout`, `get_persons`, `get_person`, `create_person`,
`update_person`, `delete_person`.

Modelling conventions:
* The SQLAlchemy database is a `DB` record holding the `users` and
  `persons` tables as lists.  `Model.query.get(k)` is `List.find?` on the
  primary key; `Model.query.filter_by(...).first()` is `List.find?` on the
  filtered column.  SQLite assigns a fresh primary key `max id + 1` on
  insert; updating a primary key to a value already present in the table
  violates the PRIMARY KEY constraint, so `db.session.commit()` fails with
  an `IntegrityError` (modelled by the `integrityError` outcome) and the
  transaction is not applied.
* A JSON request payload is a record of `Option` fields: `some v` means
  the key is present with value `v`, `none` means the key is absent.
  Accessing a missing key (`data['k']`) raises `KeyError`, which Flask
  surfaces as a 500 response; `data.get('k')`/`data.get('k', d)` are
  `Option.getD`.
* The Flask cookie `session` is a record of three `Option` fields
  (`user_id`, `username`, `permissions`); `session.clear()` resets all of
  them to `none`.  `if not user_id:` is falsy both for `None` and for the
  integer `0`, so the guard also rejects `user_id = 0`.
* `werkzeug` password hashing is modelled by an injective tagging
  function `hashPassword`; `check_password_hash` compares against it.
* Every handler returns `Except ApiError r`: `.error e` is the JSON error
  response `e.render` and leaves the database unchanged, `.ok` carries the
  successful JSON payload and (for mutating handlers) the new database.
-/

/-- Error outcomes of the handlers, one constructor per distinct
`jsonify({'error': ...}), status` site in `src/pandas.py` (plus the 500s
Flask produces for an uncaught `KeyError` or `IntegrityError`). -/
inductive ApiError where
  | unauthenticated
  | permissionDenied (required : String)
  | ownershipDenied (msg : String)
  | duplicateUsername
  | duplicateEmail
  | invalidCredentials
  | notFound
  | keyError (key : String)
  | integrityError
  deriving Repr, DecidableEq

/-- The literal `(message, HTTP status)` each error is rendered as. -/
def ApiError.render : ApiError → String × Nat
  | .unauthenticated => ("Authentication required", 401)
  | .permissionDenied p => ("Permission denied. Requires: " ++ p, 403)
  | .ownershipDenied m => (m, 403)
  | .duplicateUsername => ("Username already exists", 400)
  | .duplicateEmail => ("Email already exists", 400)
  | .invalidCredentials => ("Invalid credentials", 401)
  | .notFound => ("Not Found", 404)
  | .keyError k => ("KeyError: " ++ k, 500)
  | .integrityError => ("IntegrityError", 500)

/-- `class User(db.Model)`: `id`, `username`, `password_hash`, and the
comma-separated `permissions` string (`src/pandas.py:22-26`). -/
structure User where
  id : Nat
  username : String
  password_hash : String
  permissions : String
  deriving Repr, DecidableEq

/-- `generate_password_hash`, modelled as an injective tagging function. -/
def hashPassword (password : String) : String :=
  "pbkdf2:" ++ password

/-- `User.check_password` (`src/pandas.py:31-32`). -/
def User.check_password (u : User) (password : String) : Bool :=
  u.password_hash == hashPassword password

/-- Python's `str.split(',')`: split into the (always non-empty) list of
comma-separated fields.  Written by structural recursion on the character
list so it reduces inside the kernel. -/
def splitCommaAux : List Char → String → List String
  | [], acc => [acc]
  | c :: cs, acc =>
    if c == ',' then acc :: splitCommaAux cs ""
    else splitCommaAux cs (acc.push c)

/-- `s.split(',')`. -/
def splitComma (s : String) : List String :=
  splitCommaAux s.data ""

/-- `User.has_permission`: membership in the comma-split permission
string (`src/pandas.py:34-35`). -/
def User.has_permission (u : User) (permission : String) : Bool :=
  (splitComma u.permissions).contains permission

/-- `class Person(db.Model)` (`src/pandas.py:37-44`).  `age` is an SQL
`Integer` column, hence `Int`; `created_by` is a nullable foreign key. -/
structure Person where
  id : Nat
  name : String
  age : Int
  email : String
  phone : Option String
  address : Option String
  created_by : Option Nat
  deriving Repr, DecidableEq

/-- The SQLAlchemy database: the two tables. -/
structure DB where
  users : List User
  persons : List Person
  deriving Repr, DecidableEq

/-- The Flask cookie session: the three keys the app ever sets. -/
structure Session where
  user_id : Option Nat
  username : Option String
  permissions : Option String
  deriving Repr, DecidableEq

/-- `User.query.get(uid)`. -/
def getUser (db : DB) (uid : Nat) : Option User :=
  db.users.find? (fun u => u.id == uid)

/-- `Person.query.get(pid)` (used through `get_or_404`). -/
def getPersonRecord (db : DB) (pid : Nat) : Option Person :=
  db.persons.find? (fun p => p.id == pid)

/-- The fresh primary key SQLite assigns on insert: `max id + 1`. -/
def nextPersonId (db : DB) : Nat :=
  db.persons.foldr (fun p m => max p.id m) 0 + 1

/-- The fresh primary key SQLite assigns on user insert: `max id + 1`. -/
def nextUserId (db : DB) : Nat :=
  db.users.foldr (fun u m => max u.id m) 0 + 1

/-- The `permission_required` decorator (`src/pandas.py:47-61`): absent
(or falsy `0`) `session['user_id']` → 401 `Authentication required`;
missing user row or missing permission → 403 naming the permission;
otherwise the wrapped handler runs (here: the resolved user is returned
so the handler bodies below can proceed). -/
def permission_required (db : DB) (sess : Session) (permission : String) :
    Except ApiError User :=
  match sess.user_id with
  | none => .error .unauthenticated
  | some uid =>
    if uid == 0 then .error .unauthenticated
    else
      match getUser db uid with
      | none => .error (.permissionDenied permission)
      | some user =>
        if user.has_permission permission then .ok user
        else .error (.permissionDenied permission)

/-- JSON payload of `POST /api/register`. -/
structure RegisterData where
  username : Option String := none
  password : Option String := none
  permissions : Option String := none
  deriving Repr, DecidableEq

/-- `register` (`src/pandas.py:64-88`): no session guard; duplicate
username → 400; `permissions` taken verbatim from the payload, defaulting
to `'read'`. -/
def register (db : DB) (data : RegisterData) :
    Except ApiError (DB × User) :=
  match data.username with
  | none => .error (.keyError "username")
  | some un =>
    if (db.users.find? (fun u => u.username == un)).isSome then
      .error .duplicateUsername
    else
      match data.password with
      | none => .error (.keyError "password")
      | some pw =>
        let user : User :=
          { id := nextUserId db
            username := un
            password_hash := hashPassword pw
            permissions := data.permissions.getD "read" }
        .ok ({ db with users := db.users ++ [user] }, user)

/-- JSON payload of `POST /api/login`. -/
structure LoginData where
  username : Option String := none
  password : Option String := none
  deriving Repr, DecidableEq

/-- `login` (`src/pandas.py:90-109`): unknown username and wrong password
both short-circuit to the same `Invalid credentials` response; on success
the session stores the user's id, username and a permissions snapshot. -/
def login (db : DB) (data : LoginData) :
    Except ApiError (Session × User) :=
  match data.username with
  | none => .error (.keyError "username")
  | some un =>
    match db.users.find? (fun u => u.username == un) with
    | none => .error .invalidCredentials
    | some user =>
      match data.password with
      | none => .error (.keyError "password")
      | some pw =>
        if user.check_password pw then
          .ok ({ user_id := some user.id
                 username := some user.username
                 permissions := some user.permissions }, user)
        else .error .invalidCredentials

/-- `logout` (`src/pandas.py:111-114`): `session.clear()` plus an
unconditional success message. -/
def logout (_ : Session) : Session × String :=
  ({ user_id := none, username := none, permissions := none },
   "Logged out successfully")

/-- `get_persons` (`src/pandas.py:116-135`): requires `read`, then
returns every `Person` row with no ownership filter. -/
def get_persons (db : DB) (sess : Session) :
    Except ApiError (List Person) :=
  match permission_required db sess "read" with
  | .error e => .error e
  | .ok _ => .ok db.persons

/-- `get_person` (`src/pandas.py:137-157`): requires `read`; 404 when the
id is unknown; denies unless the record's `created_by` is the session
user or the user holds `admin`. -/
def get_person (db : DB) (sess : Session) (pid : Nat) :
    Except ApiError Person :=
  match permission_required db sess "read" with
  | .error e => .error e
  | .ok _ =>
    match getPersonRecord db pid with
    | none => .error .notFound
    | some person =>
      match sess.user_id with
      | none => .error .unauthenticated
      | some uid =>
        match getUser db uid with
        | none => .error .unauthenticated
        | some user =>
          if person.created_by != some uid && !(user.has_permission "admin") then
            .error (.ownershipDenied "Access denied to this resource")
          else .ok person

/-- JSON payload of `POST /api/persons` and `PUT /api/persons/<id>`.
A `some` field is a key present in the JSON body; for the nullable
columns (`phone`, `address`, `created_by`) the present value may itself
be `null`, hence the nested `Option`. -/
structure PersonData where
  id : Option Nat := none
  name : Option String := none
  age : Option Int := none
  email : Option String := none
  phone : Option (Option String) := none
  address : Option (Option String) := none
  created_by : Option (Option Nat) := none
  deriving Repr, DecidableEq

/-- `create_person` (`src/pandas.py:159-192`): requires `create`;
duplicate email → 400; the stored row takes `name`/`age`/`email` from the
payload (KeyError if absent), `phone`/`address` via `.get`, and
`created_by` from the session — the payload's `id`/`created_by` keys are
never read. -/
def create_person (db : DB) (sess : Session) (data : PersonData) :
    Except ApiError (DB × Person) :=
  match permission_required db sess "create" with
  | .error e => .error e
  | .ok _ =>
    match data.email with
    | none => .error (.keyError "email")
    | some em =>
      if (db.persons.find? (fun p => p.email == em)).isSome then
        .error .duplicateEmail
      else
        match data.name with
        | none => .error (.keyError "name")
        | some nm =>
          match data.age with
          | none => .error (.keyError "age")
          | some ag =>
            let person : Person :=
              { id := nextPersonId db
                name := nm
                age := ag
                email := em
                phone := (data.phone.getD none)
                address := (data.address.getD none)
                created_by := sess.user_id }
            .ok ({ db with persons := db.persons ++ [person] }, person)

/-- The field loop of `update_person` (`src/pandas.py:211-214`):
`for key, value in data.items(): if hasattr(person, key): setattr(...)`.
Every column named by a present payload key is overwritten — including
`id` and `created_by`, which are attributes of `Person`. -/
def applyUpdate (p : Person) (data : PersonData) : Person :=
  { id := data.id.getD p.id
    name := data.name.getD p.name
    age := data.age.getD p.age
    email := data.email.getD p.email
    phone := data.phone.getD p.phone
    address := data.address.getD p.address
    created_by := data.created_by.getD p.created_by }

/-- `update_person` (`src/pandas.py:194-229`): requires `update`; 404 on
unknown id; ownership-or-admin gate; duplicate check only when the
payload changes `email`; then the field loop and `commit` (which fails
with `IntegrityError`, applying nothing, when the loop changed the
primary key to one already in the table). -/
def update_person (db : DB) (sess : Session) (pid : Nat) (data : PersonData) :
    Except ApiError (DB × Person) :=
  match permission_required db sess "update" with
  | .error e => .error e
  | .ok _ =>
    match getPersonRecord db pid with
    | none => .error .notFound
    | some person =>
      match sess.user_id with
      | none => .error .unauthenticated
      | some uid =>
        match getUser db uid with
        | none => .error .unauthenticated
        | some user =>
          if person.created_by != some uid && !(user.has_permission "admin") then
            .error (.ownershipDenied "Cannot update this person")
          else if (match data.email with
                   | some em =>
                     em != person.email &&
                       (db.persons.find? (fun p => p.email == em)).isSome
                   | none => false : Bool) then
            .error .duplicateEmail
          else if (applyUpdate person data).id != person.id &&
              db.persons.any (fun q => q.id == (applyUpdate person data).id) then
            .error .integrityError
          else
            .ok ({ db with persons := (db.persons.map (fun q => if q.id == pid then applyUpdate person data else q)) },
                 applyUpdate person data)

/-- `delete_person` (`src/pandas.py:231-245`): requires `delete`; 404 on
unknown id; ownership-or-admin gate; then `DELETE WHERE id = pid`. -/
def delete_person (db : DB) (sess : Session) (pid : Nat) :
    Except ApiError DB :=
  match permission_required db sess "delete" with
  | .error e => .error e
  | .ok _ =>
    match getPersonRecord db pid with
    | none => .error .notFound
    | some person =>
      match sess.user_id with
      | none => .error .unauthenticated
      | some uid =>
        match getUser db uid with
        | none => .error .unauthenticated
        | some user =>
          if person.created_by != some uid && !(user.has_permission "admin") then
            .error (.ownershipDenied "Cannot delete this person")
          else
            .ok { db with persons := db.persons.filter (fun p => p.id != person.id) }

/-- The bootstrap database (`src/pandas.py:258-267`): empty but for the
seeded `admin` account with the full permission string. -/
def initDB : DB :=
  { users := [{ id := 1
                username := "admin"
                password_hash := hashPassword "admin123"
                permissions := "read,create,update,delete,admin" }]
    persons := [] }

/-- Direct administrative permission grant on the user table (the spec's
"mutated only by an administrative permission grant"): used to state that
authorization reads the live user row, not the login-time snapshot. -/
def setPermissions (db : DB) (uid : Nat) (perms : String) : DB :=
  { db with users := (db.users.map (fun u => if u.id == uid then { u with permissions := perms } else u)) }

/-- No two rows of the person table share a primary key. -/
def idsUnique (db : DB) : Prop :=
  (db.persons.map Person.id).Nodup

/-- No two rows of the person table share an email. -/
def emailsUnique (db : DB) : Prop :=
  (db.persons.map Person.email).Nodup

/-- Databases reachable from the bootstrap state through the mutating
handlers, under arbitrary sessions and payloads. -/
inductive Reachable : DB → Prop where
  | init : Reachable initDB
  | step_register {db data db2 u} : Reachable db →
      register db data = .ok (db2, u) → Reachable db2
  | step_create {db sess data db2 p} : Reachable db →
      create_person db sess data = .ok (db2, p) → Reachable db2
  | step_update {db sess pid data db2 p} : Reachable db →
      update_person db sess pid data = .ok (db2, p) → Reachable db2
  | step_delete {db sess pid db2} : Reachable db →
      delete_person db sess pid = .ok db2 → Reachable db2

/-- Fixture: the seeded administrator row. -/
def adminU : User :=
  { id := 1, username := "admin", password_hash := hashPassword "admin123",
    permissions := "read,create,update,delete,admin" }

/-- Fixture: a user holding every base permission but not `admin`. -/
def bobU : User :=
  { id := 2, username := "bob", password_hash := hashPassword "pw2",
    permissions := "read,create,update,delete" }

/-- Fixture: a user holding only `read`. -/
def carolU : User :=
  { id := 3, username := "carol", password_hash := hashPassword "pw3",
    permissions := "read" }

/-- Fixture: a person created by the administrator. -/
def pAnn : Person :=
  { id := 1, name := "Ann", age := 30, email := "ann@x.com", phone := none,
    address := none, created_by := some 1 }

/-- Fixture: a small database with the three users and one person. -/
def dbW : DB := { users := [adminU, bobU, carolU], persons := [pAnn] }

/-- Fixture: the administrator's session after login. -/
def sessAdmin : Session :=
  { user_id := some 1, username := some "admin",
    permissions := some "read,create,update,delete,admin" }

/-- Fixture: bob's session after login. -/
def sessBob : Session :=
  { user_id := some 2, username := some "bob",
    permissions := some "read,create,update,delete" }

/-- Fixture: carol's session after login. -/
def sessCarol : Session :=
  { user_id := some 3, username := some "carol", permissions := some "read" }

/-- Fixture: `pAnn` after its `created_by` column has been overwritten. -/
def pAnn42 : Person := { pAnn with created_by := some 42 }

/-- Fixture: the person row stored by a `create_person` call whose
payload carries a negative age. -/
def pNeg : Person :=
  { id := 2, name := "Neg", age := -5, email := "neg@x.com", phone := none,
    address := none, created_by := some 1 }

/-- Fixture: a second person, also created by the administrator. -/
def pBo : Person :=
  { id := 2, name := "Bo", age := 25, email := "bo@x.com", phone := none,
    address := none, created_by := some 1 }

/-- Fixture: the database with two persons. -/
def dbW2 : DB := { users := [adminU, bobU, carolU], persons := [pAnn, pBo] }

/-- A session carrying a non-zero user id that resolves to a user holding
the permission is admitted by the decorator with that user. -/
theorem permission_required_eq_ok {db : DB} {sess : Session} {uid : Nat}
    {u : User} {p : String}
    (h1 : sess.user_id = some uid) (h2 : uid ≠ 0) (h3 : getUser db uid = some u)
    (h4 : u.has_permission p = true) :
    permission_required db sess p = .ok u := by
  unfold permission_required
  rw [h1]
  simp [h2, h3, h4]

/-- A resolved user lacking the permission is denied by the decorator,
with the missing permission named in the error. -/
theorem permission_required_eq_denied {db : DB} {sess : Session} {uid : Nat}
    {u : User} {p : String}
    (h1 : sess.user_id = some uid) (h2 : uid ≠ 0) (h3 : getUser db uid = some u)
    (h4 : u.has_permission p = false) :
    permission_required db sess p = .error (.permissionDenied p) := by
  unfold permission_required
  rw [h1]
  simp [h2, h3, h4]

/-- Claim C7: `logout` always succeeds with the fixed success message and
is idempotent (logging out an already-cleared or unknown session is not
an error), and every permission-gated operation run with the cleared
session — the decorator itself and all five Person handlers — is denied
as `Unauthenticated`. -/
theorem c7_logout_idempotent_then_unauthenticated :
    ∀ (s : Session) (db : DB) (p : String) (pid : Nat) (pdata : PersonData),
      (logout s).2 = "Logged out successfully" ∧
      logout ((logout s).1) = logout s ∧
      permission_required db (logout s).1 p = .error .unauthenticated ∧
      get_persons db (logout s).1 = .error .unauthenticated ∧
      get_person db (logout s).1 pid = .error .unauthenticated ∧
      create_person db (logout s).1 pdata = .error .unauthenticated ∧
      update_person db (logout s).1 pid pdata = .error .unauthenticated ∧
      delete_person db (logout s).1 pid = .error .unauthenticated := by
  intro s db p pid pdata
  exact ⟨rfl, rfl, rfl, rfl, rfl, rfl, rfl, rfl⟩

/-- Claim C9: for a session user holding `read`, `get_persons` returns
the entire person table — including rows whose `created_by` differs from
the caller and rows with absent `created_by` — with no ownership
filter. -/
theorem c9_list_has_no_ownership_filter (db : DB) (sess : Session)
    (uid : Nat) (u : User)
    (h1 : sess.user_id = some uid) (h2 : uid ≠ 0) (h3 : getUser db uid = some u)
    (h4 : u.has_permission "read" = true) :
    get_persons db sess = .ok db.persons := by
  unfold get_persons
  rw [permission_required_eq_ok h1 h2 h3 h4]

/-- Witness for C9: carol holds only `read` and did not create `pAnn`,
yet the listing returns it. -/
theorem c9_witness : get_persons dbW sessCarol = .ok [pAnn] :=
  c9_list_has_no_ownership_filter dbW sessCarol 3 carolU rfl (by decide) rfl (by decide)

/-- Claim C3, failing half: the update field loop copies every payload
key that is an attribute of `Person`, so a payload carrying `created_by`
overwrites the record's `created_by` (here from `some 1` to `some 42`),
contradicting "never overwritable via update regardless of payload
content".  (The create half does hold: `create_person` never reads the
payload's `id`/`created_by`.) -/
theorem c3_update_payload_overwrites_created_by :
    pAnn.created_by = some 1 ∧
    update_person dbW sessAdmin 1 { created_by := some (some 42) } =
      .ok ({ users := dbW.users, persons := [pAnn42] }, pAnn42) ∧
    pAnn42.created_by = some 42 :=
  ⟨rfl, rfl, rfl⟩

/-- Claim C8, failing half: `create_person` performs no age validation —
a payload with `age = -5` succeeds and the stored row has a negative
age, contradicting "fails as a validation error" and "every stored
Person's age is a non-negative integer". -/
theorem c8_negative_age_is_stored :
    create_person dbW sessAdmin
        { name := some "Neg", age := some (-5), email := some "neg@x.com" } =
      .ok ({ users := dbW.users, persons := [pAnn, pNeg] }, pNeg) ∧
    pNeg.age < 0 :=
  ⟨rfl, by decide⟩

/-- Claim C6: a login attempt with an unknown username and a login
attempt with a known username but wrong password return the same error —
the identical `invalidCredentials` value, rendered as the identical
message and status — so the response does not reveal whether the
username exists. -/
theorem c6_login_error_hides_username_existence
    (db : DB) (d1 d2 : LoginData) (un1 un2 pw2 : String) (u : User)
    (h1 : d1.username = some un1)
    (h2 : db.users.find? (fun x => x.username == un1) = none)
    (h3 : d2.username = some un2)
    (h4 : db.users.find? (fun x => x.username == un2) = some u)
    (h5 : d2.password = some pw2)
    (h6 : u.check_password pw2 = false) :
    login db d1 = .error .invalidCredentials ∧
    login db d2 = .error .invalidCredentials ∧
    ∃ e : ApiError, login db d1 = .error e ∧ login db d2 = .error e ∧
      e.render = ("Invalid credentials", 401) := by
  have e1 : login db d1 = .error .invalidCredentials := by
    unfold login
    rw [h1]
    simp [h2]
  have e2 : login db d2 = .error .invalidCredentials := by
    unfold login
    rw [h3]
    simp [h4, h5, h6]
  exact ⟨e1, e2, .invalidCredentials, e1, e2, rfl⟩

/-- Witness for C6: against the fixture database, an unknown username and
bob's username with the wrong password yield the identical error. -/
theorem c6_witness :
    login dbW { username := some "nosuch", password := some "x" } =
        .error .invalidCredentials ∧
    login dbW { username := some "bob", password := some "wrong" } =
        .error .invalidCredentials ∧
    ∃ e : ApiError,
      login dbW { username := some "nosuch", password := some "x" } = .error e ∧
      login dbW { username := some "bob", password := some "wrong" } = .error e ∧
      e.render = ("Invalid credentials", 401) :=
  c6_login_error_hides_username_existence dbW
    { username := some "nosuch", password := some "x" }
    { username := some "bob", password := some "wrong" }
    "nosuch" "bob" "wrong" bobU rfl (by decide) rfl (by decide) rfl (by decide)

/-- Claim C4: `register` is reachable with no session guard, and the
created user's stored permission string is exactly the payload's
`permissions` value taken verbatim — no validation or filtering — so any
caller can self-register with any permissions, including `admin`; when
the payload omits `permissions` the stored value is exactly `read`. -/
theorem c4_register_stores_payload_permissions_verbatim
    (db : DB) (data : RegisterData) (un pw : String)
    (h1 : data.username = some un) (h2 : data.password = some pw)
    (h3 : db.users.find? (fun u => u.username == un) = none) :
    register db data =
      .ok ({ db with users := db.users ++ [{ id := nextUserId db, username := un, password_hash := hashPassword pw, permissions := data.permissions.getD "read" }] },
           { id := nextUserId db, username := un, password_hash := hashPassword pw, permissions := data.permissions.getD "read" }) ∧
    (∀ s, data.permissions = some s →
      ∃ db2 u2, register db data = .ok (db2, u2) ∧ u2.permissions = s) ∧
    (data.permissions = none →
      ∃ db2 u2, register db data = .ok (db2, u2) ∧ u2.permissions = "read") := by
  have main : register db data =
      .ok ({ db with users := db.users ++ [{ id := nextUserId db, username := un, password_hash := hashPassword pw, permissions := data.permissions.getD "read" }] },
           { id := nextUserId db, username := un, password_hash := hashPassword pw, permissions := data.permissions.getD "read" }) := by
    unfold register
    rw [h1]
    simp [h3, h2]
  refine ⟨main, ?_, ?_⟩
  · intro s hs
    refine ⟨_, _, main, ?_⟩
    rw [hs]
    rfl
  · intro hs
    refine ⟨_, _, main, ?_⟩
    rw [hs]
    rfl

/-- Witness for C4: registering with `permissions = "admin"` stores
`admin` verbatim; registering without the key stores `read`. -/
theorem c4_witness :
    (∃ db2 u2, register dbW { username := some "eve", password := some "p", permissions := some "admin" } = .ok (db2, u2) ∧ u2.permissions = "admin") ∧
    (∃ db2 u2, register dbW { username := some "frank", password := some "p" } = .ok (db2, u2) ∧ u2.permissions = "read") := by
  constructor
  · exact (c4_register_stores_payload_permissions_verbatim dbW _ "eve" "p" rfl rfl (by decide)).2.1 "admin" rfl
  · exact (c4_register_stores_payload_permissions_verbatim dbW _ "frank" "p" rfl rfl (by decide)).2.2 rfl

/-- Claim C2: the guard runs its checks in order — absent session user ⇒
`Unauthenticated` before anything else; a resolved user whose permission
string lacks the required permission ⇒ `PermissionDenied` naming it,
regardless of admin status, of the target record, or of ownership (the
ownership check of the single-record handlers runs only after the
decorator admits the request, so every handler below denies with the
named permission even for nonexistent or unowned records). -/
theorem c2_guard_checks_in_order :
    (∀ (db : DB) (sess : Session) (p : String), sess.user_id = none →
      permission_required db sess p = .error .unauthenticated) ∧
    (∀ (db : DB) (sess : Session) (uid : Nat) (u : User) (p : String),
      sess.user_id = some uid → uid ≠ 0 → getUser db uid = some u →
      u.has_permission p = false →
      permission_required db sess p = .error (.permissionDenied p)) ∧
    (∀ (db : DB) (sess : Session) (uid : Nat) (u : User),
      sess.user_id = some uid → uid ≠ 0 → getUser db uid = some u →
      (u.has_permission "read" = false →
        get_persons db sess = .error (.permissionDenied "read") ∧
        ∀ pid, get_person db sess pid = .error (.permissionDenied "read")) ∧
      (u.has_permission "create" = false → ∀ pdata,
        create_person db sess pdata = .error (.permissionDenied "create")) ∧
      (u.has_permission "update" = false → ∀ pid pdata,
        update_person db sess pid pdata = .error (.permissionDenied "update")) ∧
      (u.has_permission "delete" = false → ∀ pid,
        delete_person db sess pid = .error (.permissionDenied "delete"))) := by
  refine ⟨?_, ?_, ?_⟩
  · intro db sess p h
    unfold permission_required
    rw [h]
  · intro db sess uid u p h1 h2 h3 h4
    exact permission_required_eq_denied h1 h2 h3 h4
  · intro db sess uid u h1 h2 h3
    refine ⟨?_, ?_, ?_, ?_⟩
    · intro h4
      constructor
      · unfold get_persons
        rw [permission_required_eq_denied h1 h2 h3 h4]
      · intro pid
        unfold get_person
        rw [permission_required_eq_denied h1 h2 h3 h4]
    · intro h4 pdata
      unfold create_person
      rw [permission_required_eq_denied h1 h2 h3 h4]
    · intro h4 pid pdata
      unfold update_person
      rw [permission_required_eq_denied h1 h2 h3 h4]
    · intro h4 pid
      unfold delete_person
      rw [permission_required_eq_denied h1 h2 h3 h4]

/-- Witness for C2: the cleared session is unauthenticated; carol (only
`read`) is denied `create` by the guard and by the handler, even though
the target record situation is irrelevant. -/
theorem c2_witness :
    permission_required dbW { user_id := none, username := none, permissions := none } "read" = .error .unauthenticated ∧
    permission_required dbW sessCarol "create" = .error (.permissionDenied "create") ∧
    create_person dbW sessCarol { name := some "X", age := some 1, email := some "x@x.com" } = .error (.permissionDenied "create") :=
  ⟨c2_guard_checks_in_order.1 dbW _ "read" rfl,
   c2_guard_checks_in_order.2.1 dbW sessCarol 3 carolU "create" rfl (by decide) rfl (by decide),
   (c2_guard_checks_in_order.2.2 dbW sessCarol 3 carolU rfl (by decide) rfl).2.1 (by decide) _⟩

/-- An administrative permission grant is visible to `User.query.get`:
the re-fetched row carries the new permission string. -/
theorem getUser_setPermissions {db : DB} {uid : Nat} (perms : String) {u : User}
    (h : getUser db uid = some u) :
    getUser (setPermissions db uid perms) uid = some { u with permissions := perms } := by
  have husers : (setPermissions db uid perms).users = db.users.map (fun v => if v.id == uid then { v with permissions := perms } else v) := rfl
  unfold getUser at h ⊢
  rw [husers, List.find?_map]
  have hcomp : ((fun (v : User) => v.id == uid) ∘ (fun (v : User) => if v.id == uid then { v with permissions := perms } else v)) = fun (v : User) => v.id == uid := by
    funext x
    by_cases hx : (x.id == uid) = true
    · simp [Function.comp, hx]
    · simp [Function.comp, hx]
  rw [hcomp, h]
  have hu : (u.id == uid) = true := by
    simpa using List.find?_some h
  simp [hu]
  intro hx
  exact absurd (by simpa using hu) hx

/-- Claim C10: the guard's decision depends only on the session's
`user_id` and the live user table — the permission snapshot stored in the
session at login is never consulted — and after a direct grant the very
next request is decided by the new permission string with no re-login. -/
theorem c10_authorization_reads_live_permissions :
    (∀ (db : DB) (s1 s2 : Session) (p : String), s1.user_id = s2.user_id →
      permission_required db s1 p = permission_required db s2 p) ∧
    (∀ (db : DB) (sess : Session) (uid : Nat) (u : User) (perms p : String),
      sess.user_id = some uid → uid ≠ 0 → getUser db uid = some u →
      permission_required (setPermissions db uid perms) sess p =
        (if ({ u with permissions := perms } : User).has_permission p
         then .ok { u with permissions := perms }
         else .error (.permissionDenied p))) := by
  constructor
  · intro db s1 s2 p h
    unfold permission_required
    rw [h]
  · intro db sess uid u perms p h1 h2 h3
    have h4 := getUser_setPermissions perms h3
    cases hb : ({ u with permissions := perms } : User).has_permission p
    · rw [permission_required_eq_denied h1 h2 h4 hb]
      simp [hb]
    · rw [permission_required_eq_ok h1 h2 h4 hb]
      simp [hb]

/-- Witness for C10: carol's decision ignores the snapshot (a session
claiming an `admin` snapshot decides identically), and granting carol
`create` makes the guard admit her next `create` request. -/
theorem c10_witness :
    permission_required dbW sessCarol "create" =
      permission_required dbW { user_id := some 3, username := none, permissions := some "admin" } "create" ∧
    permission_required (setPermissions dbW 3 "read,create") sessCarol "create" =
      .ok { carolU with permissions := "read,create" } := by
  constructor
  · exact c10_authorization_reads_live_permissions.1 dbW sessCarol _ "create" rfl
  · rw [c10_authorization_reads_live_permissions.2 dbW sessCarol 3 carolU "read,create" "create" rfl (by decide) rfl]
    rfl

/-- Characterization of `get_person` once the decorator admits the
request and the record exists: only the ownership-or-admin test
remains. -/
theorem get_person_eq {db : DB} {sess : Session} {uid pid : Nat} {u : User}
    {person : Person}
    (h1 : sess.user_id = some uid) (h2 : uid ≠ 0) (h3 : getUser db uid = some u)
    (h4 : getPersonRecord db pid = some person)
    (hr : u.has_permission "read" = true) :
    get_person db sess pid =
      (if person.created_by != some uid && !(u.has_permission "admin")
       then .error (.ownershipDenied "Access denied to this resource")
       else .ok person) := by
  unfold get_person
  rw [permission_required_eq_ok h1 h2 h3 hr]
  simp only [h4, h1, h3]

/-- Characterization of `update_person` once the decorator admits the
request and the record exists: the ownership-or-admin test, then the
email-uniqueness test, then the primary-key constraint, then the write. -/
theorem update_person_eq {db : DB} {sess : Session} {uid pid : Nat} {u : User}
    {person : Person} (pdata : PersonData)
    (h1 : sess.user_id = some uid) (h2 : uid ≠ 0) (h3 : getUser db uid = some u)
    (h4 : getPersonRecord db pid = some person)
    (hu : u.has_permission "update" = true) :
    update_person db sess pid pdata =
      (if person.created_by != some uid && !(u.has_permission "admin")
       then .error (.ownershipDenied "Cannot update this person")
       else if (match pdata.email with
                | some em => em != person.email && (db.persons.find? (fun p => p.email == em)).isSome
                | none => false : Bool)
       then .error .duplicateEmail
       else if (applyUpdate person pdata).id != person.id && db.persons.any (fun q => q.id == (applyUpdate person pdata).id)
       then .error .integrityError
       else .ok ({ db with persons := (db.persons.map (fun q => if q.id == pid then applyUpdate person pdata else q)) }, applyUpdate person pdata)) := by
  unfold update_person
  rw [permission_required_eq_ok h1 h2 h3 hu]
  simp only [h4, h1, h3]

/-- Characterization of `delete_person` once the decorator admits the
request and the record exists. -/
theorem delete_person_eq {db : DB} {sess : Session} {uid pid : Nat} {u : User}
    {person : Person}
    (h1 : sess.user_id = some uid) (h2 : uid ≠ 0) (h3 : getUser db uid = some u)
    (h4 : getPersonRecord db pid = some person)
    (hd : u.has_permission "delete" = true) :
    delete_person db sess pid =
      (if person.created_by != some uid && !(u.has_permission "admin")
       then .error (.ownershipDenied "Cannot delete this person")
       else .ok { db with persons := db.persons.filter (fun p => p.id != person.id) }) := by
  unfold delete_person
  rw [permission_required_eq_ok h1 h2 h3 hd]
  simp only [h4, h1, h3]

/-- Claim C1: for single-record get/update/delete on an existing record
by an authenticated user holding the operation's base permission, the
request clears the ownership gate iff the record's `created_by` is the
caller's id or the caller holds `admin`; otherwise it is denied with the
operation's ownership error. -/
theorem c1_ownership_or_admin_gate
    (db : DB) (sess : Session) (uid pid : Nat) (u : User) (person : Person)
    (h1 : sess.user_id = some uid) (h2 : uid ≠ 0)
    (h3 : getUser db uid = some u)
    (h4 : getPersonRecord db pid = some person) :
    (u.has_permission "read" = true →
      ((person.created_by = some uid ∨ u.has_permission "admin" = true) →
        get_person db sess pid = .ok person) ∧
      (person.created_by ≠ some uid → u.has_permission "admin" = false →
        get_person db sess pid = .error (.ownershipDenied "Access denied to this resource"))) ∧
    (u.has_permission "update" = true → ∀ pdata : PersonData,
      (update_person db sess pid pdata = .error (.ownershipDenied "Cannot update this person") ↔
        (person.created_by ≠ some uid ∧ u.has_permission "admin" = false))) ∧
    (u.has_permission "delete" = true →
      ((person.created_by = some uid ∨ u.has_permission "admin" = true) →
        delete_person db sess pid = .ok { db with persons := db.persons.filter (fun p => p.id != person.id) }) ∧
      (person.created_by ≠ some uid → u.has_permission "admin" = false →
        delete_person db sess pid = .error (.ownershipDenied "Cannot delete this person"))) := by
  have hcondT : ∀ (_ : person.created_by ≠ some uid) (_ : u.has_permission "admin" = false),
      (person.created_by != some uid && !(u.has_permission "admin")) = true := by
    intro hA hB
    simp [hB, bne_iff_ne, hA]
  have hcondF : (person.created_by = some uid ∨ u.has_permission "admin" = true) →
      (person.created_by != some uid && !(u.has_permission "admin")) = false := by
    intro hC
    rcases hC with hC | hC
    · simp [hC]
    · simp [hC]
  refine ⟨?_, ?_, ?_⟩
  · intro hr
    constructor
    · intro hC
      rw [get_person_eq h1 h2 h3 h4 hr]
      simp [hcondF hC]
    · intro hA hB
      rw [get_person_eq h1 h2 h3 h4 hr]
      simp [hcondT hA hB]
  · intro hu' pdata
    rw [update_person_eq pdata h1 h2 h3 h4 hu']
    cases hcond : (person.created_by != some uid && !(u.has_permission "admin"))
    · simp only [hcond, Bool.false_eq_true, if_false]
      constructor
      · intro heq
        exfalso
        split at heq
        · exact absurd heq (by simp)
        · split at heq
          · exact absurd heq (by simp)
          · exact absurd heq (by simp)
      · rintro ⟨hA, hB⟩
        exfalso
        rw [hcondT hA hB] at hcond
        exact absurd hcond (by simp)
    · simp only [hcond, if_true]
      have hsplit : person.created_by ≠ some uid ∧ u.has_permission "admin" = false := by
        have := hcond
        simp only [Bool.and_eq_true, bne_iff_ne, Bool.not_eq_true'] at this
        exact this
      simp [hsplit.1, hsplit.2]
  · intro hd
    constructor
    · intro hC
      rw [delete_person_eq h1 h2 h3 h4 hd]
      simp [hcondF hC]
    · intro hA hB
      rw [delete_person_eq h1 h2 h3 h4 hd]
      simp [hcondT hA hB]

/-- Witness for C1: bob holds all base permissions but not `admin` and is
denied reading the admin-created `pAnn`; the admin may delete it despite
ownership being irrelevant to them. -/
theorem c1_witness :
    get_person dbW sessBob 1 = .error (.ownershipDenied "Access denied to this resource") ∧
    delete_person dbW sessAdmin 1 = .ok { dbW with persons := [] } := by
  constructor
  · exact ((c1_ownership_or_admin_gate dbW sessBob 2 1 bobU pAnn rfl (by decide) rfl rfl).1 (by decide)).2 (by decide) (by decide)
  · have := ((c1_ownership_or_admin_gate dbW sessAdmin 1 1 adminU pAnn rfl (by decide) rfl rfl).2.2 (by decide)).1 (Or.inl (by decide))
    simpa using this

/-- Every row's id is bounded by the running maximum of the table. -/
theorem le_foldr_max_id (l : List Person) (q : Person) (hq : q ∈ l) :
    q.id ≤ l.foldr (fun p m => max p.id m) 0 := by
  induction l with
  | nil => cases hq
  | cons a l ih =>
    rcases List.mem_cons.mp hq with rfl | hq
    · exact le_max_left _ _
    · exact le_trans (ih hq) (le_max_right _ _)

/-- Appending a row whose key is absent from the table preserves
key-uniqueness. -/
theorem nodup_map_append_fresh {α : Type} (key : Person → α)
    (l : List Person) (p : Person)
    (h : (l.map key).Nodup) (hfresh : ∀ q ∈ l, key q ≠ key p) :
    ((l ++ [p]).map key).Nodup := by
  rw [List.map_append, List.nodup_append]
  refine ⟨h, by simp, ?_⟩
  intro a ha hb
  rcases List.mem_map.mp ha with ⟨q, hq, rfl⟩
  have hb' : key q = key p := by simpa using hb
  exact hfresh q hq hb'

/-- Replacing the row found by primary key with a row whose key is either
unchanged or absent from the table preserves key-uniqueness. -/
theorem nodup_map_replace {α : Type} (key : Person → α)
    (l : List Person) (pid : Nat) (person p2 : Person)
    (hfind : l.find? (fun q => q.id == pid) = some person)
    (hids : (l.map Person.id).Nodup)
    (hkey : (l.map key).Nodup)
    (hnew : key p2 = key person ∨ ∀ q ∈ l, key q ≠ key p2) :
    ((l.map (fun q => if q.id == pid then p2 else q)).map key).Nodup := by
  rw [List.map_map]
  have hl : l.Nodup := List.Nodup.of_map Person.id hids
  have hidinj := List.inj_on_of_nodup_map hids
  have hkeyinj := List.inj_on_of_nodup_map hkey
  have hmem : person ∈ l := List.mem_of_find?_eq_some hfind
  have hpid : person.id = pid := by simpa using List.find?_some hfind
  refine List.Nodup.map_on ?_ hl
  intro x hx y hy hxy
  simp only [Function.comp] at hxy
  by_cases hxid : (x.id == pid) = true
  · by_cases hyid : (y.id == pid) = true
    · have hx1 : x.id = pid := by simpa using hxid
      have hy1 : y.id = pid := by simpa using hyid
      exact hidinj hx hy (hx1.trans hy1.symm)
    · exfalso
      rw [if_pos hxid, if_neg hyid] at hxy
      rcases hnew with hsame | hfresh
      · have hpy : person = y := hkeyinj hmem hy (hsame.symm.trans hxy)
        apply hyid
        rw [← hpy]
        simp [hpid]
      · exact hfresh y hy hxy.symm
  · by_cases hyid : (y.id == pid) = true
    · exfalso
      rw [if_neg hxid, if_pos hyid] at hxy
      rcases hnew with hsame | hfresh
      · have hpx : person = x := hkeyinj hmem hx (hsame.symm.trans hxy.symm)
        apply hxid
        rw [← hpx]
        simp [hpid]
      · exact hfresh x hx hxy
    · rw [if_neg hxid, if_neg hyid] at hxy
      exact hkeyinj hx hy hxy

/-- A failed `register` leaves no trace; a successful one does not touch
the person table. -/
theorem register_ok_persons {db : DB} {data : RegisterData} {db2 : DB} {u2 : User}
    (h : register db data = .ok (db2, u2)) : db2.persons = db.persons := by
  unfold register at h
  split at h
  · exact absurd h (by simp)
  · split at h
    · exact absurd h (by simp)
    · split at h
      · exact absurd h (by simp)
      · simp only [Except.ok.injEq, Prod.mk.injEq] at h
        rw [← h.1]


/-- Inversion of a successful `create_person`: the new table is the old
with one appended row whose id is the fresh primary key and whose email
was absent from the old table. -/
theorem create_person_ok_shape {db : DB} {sess : Session} {pdata : PersonData}
    {db2 : DB} {p : Person}
    (h : create_person db sess pdata = .ok (db2, p)) :
    db2.persons = db.persons ++ [p] ∧ p.id = nextPersonId db ∧
    ∀ q ∈ db.persons, q.email ≠ p.email := by
  unfold create_person at h
  split at h
  · exact absurd h (by simp)
  · split at h
    · exact absurd h (by simp)
    · split at h
      · exact absurd h (by simp)
      · split at h
        · exact absurd h (by simp)
        · split at h
          · exact absurd h (by simp)
          · rename_i x2 em heqem hdup x1 nm heqnm x0 ag heqag
            simp only [Except.ok.injEq, Prod.mk.injEq] at h
            obtain ⟨hdb, hp⟩ := h
            subst hdb
            subst hp
            refine ⟨rfl, rfl, ?_⟩
            intro q hq heq
            have hnone : (db.persons.find? (fun p2 => p2.email == em)) = none :=
              Option.not_isSome_iff_eq_none.mp hdup
            have hne := List.find?_eq_none.mp hnone q hq
            exact hne (by simp only [] at heq; simp [heq])

/-- Inversion of a successful `update_person`: the new table is the old
with the row of the requested id replaced; the replacement's id and email
are each either unchanged or absent from the old table. -/
theorem update_person_ok_shape {db : DB} {sess : Session} {pid : Nat}
    {pdata : PersonData} {db2 : DB} {p : Person}
    (h : update_person db sess pid pdata = .ok (db2, p)) :
    ∃ person, getPersonRecord db pid = some person ∧
      db2.persons = db.persons.map (fun q => if q.id == pid then p else q) ∧
      (p.id = person.id ∨ ∀ q ∈ db.persons, q.id ≠ p.id) ∧
      (p.email = person.email ∨ ∀ q ∈ db.persons, q.email ≠ p.email) := by
  unfold update_person at h
  split at h
  · exact absurd h (by simp)
  · split at h
    · exact absurd h (by simp)
    · split at h
      · exact absurd h (by simp)
      · split at h
        · exact absurd h (by simp)
        · split at h
          · exact absurd h (by simp)
          · split at h
            · exact absurd h (by simp)
            · split at h
              · exact absurd h (by simp)
              · rename_i xfind person heqfind xuid uid hequid xusr usr hequsr hown hconf hint
                simp only [Except.ok.injEq, Prod.mk.injEq] at h
                obtain ⟨hdb, hp⟩ := h
                subst hdb
                refine ⟨person, heqfind, ?_, ?_, ?_⟩
                · rw [← hp]
                · rw [← hp]
                  by_cases hid : (applyUpdate person pdata).id = person.id
                  · exact Or.inl hid
                  · refine Or.inr ?_
                    intro q hq heq2
                    apply hint
                    have hb1 : ((applyUpdate person pdata).id != person.id) = true := by
                      simpa using hid
                    have hb2 : (db.persons.any (fun q2 => q2.id == (applyUpdate person pdata).id)) = true := by
                      rw [List.any_eq_true]
                      exact ⟨q, hq, by simp [heq2]⟩
                    rw [hb1, hb2]
                    rfl
                · rw [← hp]
                  cases heqem : pdata.email with
                  | none =>
                    refine Or.inl ?_
                    show (applyUpdate person pdata).email = person.email
                    unfold applyUpdate
                    rw [heqem]
                    rfl
                  | some em =>
                    by_cases hce : em = person.email
                    · refine Or.inl ?_
                      show (applyUpdate person pdata).email = person.email
                      unfold applyUpdate
                      rw [heqem]
                      exact hce
                    · refine Or.inr ?_
                      intro q hq heq2
                      apply hconf
                      rw [heqem]
                      have hb1 : (em != person.email) = true := by simpa using hce
                      have hpe : (applyUpdate person pdata).email = em := by
                        unfold applyUpdate
                        rw [heqem]
                        rfl
                      rw [hpe] at heq2
                      have hb2 : (db.persons.find? (fun p2 => p2.email == em)).isSome = true := by
                        rw [List.find?_isSome]
                        exact ⟨q, hq, by simp [heq2]⟩
                      show (em != person.email && (List.find? (fun p => p.email == em) db.persons).isSome) = true
                      rw [hb1, hb2]
                      rfl

/-- Inversion of a successful `delete_person`: the new table is the old
filtered on the deleted row's id. -/
theorem delete_person_ok_shape {db : DB} {sess : Session} {pid : Nat} {db2 : DB}
    (h : delete_person db sess pid = .ok db2) :
    ∃ person : Person, db2.persons = db.persons.filter (fun q => q.id != person.id) := by
  unfold delete_person at h
  split at h
  · exact absurd h (by simp)
  · split at h
    · exact absurd h (by simp)
    · split at h
      · exact absurd h (by simp)
      · split at h
        · exact absurd h (by simp)
        · split at h
          · exact absurd h (by simp)
          · rename_i xfind person heqfind xuid uid hequid xusr usr hequsr hown
            refine ⟨person, ?_⟩
            simp only [Except.ok.injEq] at h
            rw [← h]

/-- `create_person` preserves id- and email-uniqueness. -/
theorem create_preserves_inv {db : DB} {sess : Session} {pdata : PersonData}
    {db2 : DB} {p : Person}
    (h : create_person db sess pdata = .ok (db2, p))
    (hids : idsUnique db) (hem : emailsUnique db) :
    idsUnique db2 ∧ emailsUnique db2 := by
  obtain ⟨hpersons, hpid, hfresh⟩ := create_person_ok_shape h
  constructor
  · unfold idsUnique
    rw [hpersons]
    refine nodup_map_append_fresh Person.id db.persons p hids ?_
    intro q hq
    have hle := le_foldr_max_id db.persons q hq
    rw [hpid]
    unfold nextPersonId
    omega
  · unfold emailsUnique
    rw [hpersons]
    exact nodup_map_append_fresh Person.email db.persons p hem hfresh

/-- `update_person` preserves id- and email-uniqueness. -/
theorem update_preserves_inv {db : DB} {sess : Session} {pid : Nat}
    {pdata : PersonData} {db2 : DB} {p : Person}
    (h : update_person db sess pid pdata = .ok (db2, p))
    (hids : idsUnique db) (hem : emailsUnique db) :
    idsUnique db2 ∧ emailsUnique db2 := by
  obtain ⟨person, hfind, hpersons, hid, hemail⟩ := update_person_ok_shape h
  have hfind2 : db.persons.find? (fun q => q.id == pid) = some person := hfind
  constructor
  · unfold idsUnique
    rw [hpersons]
    exact nodup_map_replace Person.id db.persons pid person p hfind2 hids hids hid
  · unfold emailsUnique
    rw [hpersons]
    exact nodup_map_replace Person.email db.persons pid person p hfind2 hids hem hemail

/-- `delete_person` preserves id- and email-uniqueness. -/
theorem delete_preserves_inv {db : DB} {sess : Session} {pid : Nat} {db2 : DB}
    (h : delete_person db sess pid = .ok db2)
    (hids : idsUnique db) (hem : emailsUnique db) :
    idsUnique db2 ∧ emailsUnique db2 := by
  obtain ⟨person, hpersons⟩ := delete_person_ok_shape h
  have hsub : db2.persons.Sublist db.persons := by
    rw [hpersons]
    exact List.filter_sublist db.persons
  constructor
  · exact List.Nodup.sublist (List.Sublist.map Person.id hsub) hids
  · exact List.Nodup.sublist (List.Sublist.map Person.email hsub) hem

/-- `register` preserves id- and email-uniqueness (it never touches the
person table). -/
theorem register_preserves_inv {db : DB} {data : RegisterData} {db2 : DB} {u2 : User}
    (h : register db data = .ok (db2, u2))
    (hids : idsUnique db) (hem : emailsUnique db) :
    idsUnique db2 ∧ emailsUnique db2 := by
  have hp := register_ok_persons h
  unfold idsUnique emailsUnique at *
  rw [hp]
  exact ⟨hids, hem⟩

/-- Every reachable database has unique person ids and unique person
emails. -/
theorem reachable_inv {db : DB} (h : Reachable db) :
    idsUnique db ∧ emailsUnique db := by
  induction h with
  | init =>
    constructor
    · unfold idsUnique
      decide
    · unfold emailsUnique
      decide
  | step_register hr hs ih => exact register_preserves_inv hs ih.1 ih.2
  | step_create hr hs ih => exact create_preserves_inv hs ih.1 ih.2
  | step_update hr hs ih => exact update_preserves_inv hs ih.1 ih.2
  | step_delete hr hs ih => exact delete_preserves_inv hs ih.1 ih.2

/-- With the decorator satisfied, `create_person` fails with the
duplicate-email error when some row already holds the payload email. -/
theorem create_person_duplicate_email {db : DB} {sess : Session} {uid : Nat}
    {u : User} {pdata : PersonData} {em : String}
    (h1 : sess.user_id = some uid) (h2 : uid ≠ 0) (h3 : getUser db uid = some u)
    (hc : u.has_permission "create" = true)
    (he : pdata.email = some em)
    (hdup : (db.persons.find? (fun p => p.email == em)).isSome = true) :
    create_person db sess pdata = .error .duplicateEmail := by
  unfold create_person
  rw [permission_required_eq_ok h1 h2 h3 hc]
  simp [he, hdup]

/-- With the decorator and the ownership gate satisfied, `update_person`
fails with the duplicate-email error when the payload changes the email
to one some row already holds. -/
theorem update_person_duplicate_email {db : DB} {sess : Session} {uid pid : Nat}
    {u : User} {person : Person} {pdata : PersonData} {em : String}
    (h1 : sess.user_id = some uid) (h2 : uid ≠ 0) (h3 : getUser db uid = some u)
    (hu : u.has_permission "update" = true)
    (h4 : getPersonRecord db pid = some person)
    (hown : person.created_by = some uid ∨ u.has_permission "admin" = true)
    (he : pdata.email = some em) (hne : em ≠ person.email)
    (hdup : (db.persons.find? (fun p => p.email == em)).isSome = true) :
    update_person db sess pid pdata = .error .duplicateEmail := by
  rw [update_person_eq pdata h1 h2 h3 h4 hu]
  have hcondF : (person.created_by != some uid && !(u.has_permission "admin")) = false := by
    rcases hown with hC | hC
    · simp [hC]
    · simp [hC]
  have hb1 : (em != person.email) = true := by simpa using hne
  simp [hcondF, he, hb1, hdup]

/-- Claim C5: email uniqueness is an invariant of the person table —
every reachable database has pairwise-distinct person emails — and both
guarded writes respect it: with the request otherwise admitted,
`create_person` fails with the duplicate-email error (returning no new
database) when a row with the payload email exists, and `update_person`
fails the same way when the payload changes the email to one another row
holds. -/
theorem c5_email_uniqueness_invariant :
    (∀ db : DB, Reachable db → emailsUnique db) ∧
    (∀ (db : DB) (sess : Session) (uid : Nat) (u : User) (pdata : PersonData) (em : String),
      sess.user_id = some uid → uid ≠ 0 → getUser db uid = some u →
      u.has_permission "create" = true → pdata.email = some em →
      (db.persons.find? (fun p => p.email == em)).isSome = true →
      create_person db sess pdata = .error .duplicateEmail) ∧
    (∀ (db : DB) (sess : Session) (uid pid : Nat) (u : User) (person : Person)
        (pdata : PersonData) (em : String),
      sess.user_id = some uid → uid ≠ 0 → getUser db uid = some u →
      u.has_permission "update" = true → getPersonRecord db pid = some person →
      (person.created_by = some uid ∨ u.has_permission "admin" = true) →
      pdata.email = some em → em ≠ person.email →
      (db.persons.find? (fun p => p.email == em)).isSome = true →
      update_person db sess pid pdata = .error .duplicateEmail) := by
  refine ⟨?_, ?_, ?_⟩
  · intro db h
    exact (reachable_inv h).2
  · intro db sess uid u pdata em h1 h2 h3 hc he hdup
    exact create_person_duplicate_email h1 h2 h3 hc he hdup
  · intro db sess uid pid u person pdata em h1 h2 h3 hu h4 hown he hne hdup
    exact update_person_duplicate_email h1 h2 h3 hu h4 hown he hne hdup

/-- Witness for C5: the bootstrap database has unique emails; creating a
person with Ann's email is rejected; updating Ann's email to Bo's email
is rejected. -/
theorem c5_witness :
    emailsUnique initDB ∧
    create_person dbW sessAdmin { name := some "Dup", age := some 1, email := some "ann@x.com" } = .error .duplicateEmail ∧
    update_person dbW2 sessAdmin 1 { email := some "bo@x.com" } = .error .duplicateEmail := by
  refine ⟨c5_email_uniqueness_invariant.1 initDB Reachable.init, ?_, ?_⟩
  · exact c5_email_uniqueness_invariant.2.1 dbW sessAdmin 1 adminU
      { name := some "Dup", age := some 1, email := some "ann@x.com" } "ann@x.com"
      rfl (by decide) rfl (by decide) rfl (by decide)
  · exact c5_email_uniqueness_invariant.2.2 dbW2 sessAdmin 1 1 adminU pAnn
      { email := some "bo@x.com" } "bo@x.com"
      rfl (by decide) rfl (by decide) rfl (Or.inl (by decide)) rfl (by decide) (by decide)
